import Mathlib

/-!
Verification of the vyos-client library: a shallow embedding of the
request gateway (`Vyos.request`), the stateless facades
(`VyosConfig`, `VyosImages`, `VyosOps`) and the request construction
performed by the axios `transformRequest` hook, together with theorems
about the library's behaviour.

Source: `src/index.ts` (the single implementation file of the package).
-/

/-- JS values as far as this library manipulates them: JSON values plus
the JS `undefined` (the resolution value of the `async` methods that
contain no `return` statement, and the result of reading an absent
property), plus the members every plain object inherits from
`Object.prototype` — `protoMember n` is the member named `n` (a function
such as `Object.prototype.toString`, or for `__proto__` the prototype
object itself), modelled opaquely by its name since the library never
calls or inspects such a value, only returns it. -/
inductive Json where
  | null
  | bool (b : Bool)
  | num (n : Int)
  | str (s : String)
  | arr (elems : List Json)
  | obj (fields : List (String × Json))
  | undef
  | protoMember (name : String)

/-- The `Response` interface of the source:
`interface Response \x7b success: boolean; data: any; error: string | undefined \x7d`.
`error` being `undefined` (or JSON `null`) is modelled as `none`. -/
structure Response where
  success : Bool
  data : Json
  error : Option String

/-- The response envelope viewed as the plain JS object the caller of
`request` receives (the parsed JSON body). -/
def Response.toJs (r : Response) : Json :=
  .obj [("success", .bool r.success), ("data", r.data),
        ("error", match r.error with | none => .null | some e => .str e)]

/-- JS truthiness of `body.error` (a `string | undefined`): `undefined`
and the empty string are falsy, every non-empty string is truthy. -/
def errTruthy : Option String → Bool
  | none => false
  | some s => decide (s ≠ "")

/-- An error thrown by the axios transport: a message, and the response
envelope when the server answered with a non-2xx status carrying a parsable
body (`err.response.data`); `none` when no response was received
(connection failure, timeout). -/
structure AxiosError where
  message : String
  response : Option Response

/-- The outcome of the single `this.#client.post(endpoint, payload)`
exchange: either a 2xx response whose parsed body is `body`, or a thrown
transport error. -/
inductive AxiosOutcome where
  | ok (body : Response)
  | err (e : AxiosError)

/-- A value thrown out of `Vyos.request` (and hence out of every facade
method): the envelope's error string (`throw body.error` — the
"RemoteOperationError" of the specification), the rethrown axios error
(`throw err` — the "TransportError" of the specification), or a
`TypeError` raised by the `in` operator applied to a non-object. -/
inductive JsThrown where
  | errString (s : String)
  | axiosError (e : AxiosError)
  | typeError

/-- The `try` block of `Vyos.request`:
`const body = (await this.#client.post(endpoint, payload)).data;`
`if (body.success === false && body.error) throw body.error;`
`return body`. -/
def tryClause : AxiosOutcome → Except JsThrown Response
  | .ok body =>
      if body.success == false && errTruthy body.error then
        .error (.errString (body.error.getD ""))
      else
        .ok body
  | .err e => .error (.axiosError e)

/-- `err?.response?.data` for a thrown value: a thrown string has no
`response` property; an axios error exposes the envelope of a non-2xx
response when one was received. -/
def thrownResponse : JsThrown → Option Response
  | .axiosError e => e.response
  | _ => none

/-- The `catch` block of `Vyos.request`:
`const body = err?.response?.data;`
`if (body?.success === false && body?.error) throw body.error;`
`throw err`. -/
def catchClause (err : JsThrown) : Except JsThrown Response :=
  match thrownResponse err with
  | some body =>
      if body.success == false && errTruthy body.error then
        .error (.errString (body.error.getD ""))
      else
        .error err
  | none => .error err

/-- `Vyos.request(endpoint, payload)`: the try block, with the catch
block applied to anything it throws. The `endpoint` and `payload`
arguments only determine the issued HTTP request (see `Vyos.sendRequest`);
the produced value is a function of the transport outcome alone. -/
def Vyos.request (outcome : AxiosOutcome) : Except JsThrown Response :=
  match tryClause outcome with
  | .ok body => .ok body
  | .error e => catchClause e

/-- JS `String.prototype.split` with the single-space separator, on the
underlying character list: every occurrence of `' '` is a cut point and
empty pieces are kept, so `split` never returns an empty list. -/
def splitChar : List Char → List (List Char)
  | [] => [[]]
  | c :: cs =>
      if c = ' ' then
        [] :: splitChar cs
      else
        match splitChar cs with
        | [] => [[c]]
        | w :: ws => (c :: w) :: ws

/-- `path.split(' ')` as used by every path-taking facade method. -/
def splitPath (p : String) : List String :=
  (splitChar p.data).map fun cs => String.mk cs

example : splitPath "system host-name" = ["system", "host-name"] := by decide
example : splitPath "date" = ["date"] := by decide
example : splitPath "a  b" = ["a", "", "b"] := by decide
example : splitPath "" = [""] := by decide

/-- Lower-case hexadecimal digit, for JSON string escapes. -/
def hexDigit (n : Nat) : Char :=
  if n < 10 then Char.ofNat (48 + n) else Char.ofNat (87 + n)

/-- `JSON.stringify` escaping of one character inside a string literal. -/
def escapeJsonChar (c : Char) : String :=
  if c = '"' then "\\\""
  else if c = '\\' then "\\\\"
  else if c = '\n' then "\\n"
  else if c = '\r' then "\\r"
  else if c = '\t' then "\\t"
  else if c.toNat = 8 then "\\b"
  else if c.toNat = 12 then "\\f"
  else if c.toNat < 32 then
    "\\u00" ++ String.mk [hexDigit (c.toNat / 16), hexDigit (c.toNat % 16)]
  else String.mk [c]

/-- A JSON string literal, `JSON.stringify` style. -/
def quoteJson (s : String) : String :=
  "\"" ++ String.join (s.data.map escapeJsonChar) ++ "\""

mutual
/-- `JSON.stringify` of a descriptor value. The payloads built by the
facades never contain `undef`; its arm is the JS rendering inside an
array (`null`). -/
def stringifyJson : Json → String
  | .null => "null"
  | .bool true => "true"
  | .bool false => "false"
  | .num n => toString n
  | .str s => quoteJson s
  | .arr xs => "[" ++ String.intercalate "," (stringifyArr xs) ++ "]"
  | .obj fs => "\x7b" ++ String.intercalate "," (stringifyObj fs) ++ "\x7d"
  | .undef => "null"
  | .protoMember _ => "null"

/-- Renders each element of a JSON array. -/
def stringifyArr : List Json → List String
  | [] => []
  | x :: xs => stringifyJson x :: stringifyArr xs

/-- Renders each `key:value` member of a JSON object. -/
def stringifyObj : List (String × Json) → List String
  | [] => []
  | (k, v) :: fs => (quoteJson k ++ ":" ++ stringifyJson v) :: stringifyObj fs
end

/-- One HTTP request as put on the wire by the axios instance: the method,
the resolved URL, and the multipart form fields appended by the
`transformRequest` hook. -/
structure HttpRequest where
  method : String
  url : String
  form : List (String × String)

/-- Resolution of a request path against the configured `baseURL`. -/
def combineURL (baseURL endpoint : String) : String :=
  baseURL ++ "/" ++ endpoint

/-- The request issued by one call of `Vyos.request(endpoint, payload)`:
a POST to `<baseURL>/<endpoint>` whose body is the form built by
`transformRequest`:
`form.append('key', key); form.append('data', JSON.stringify(data))`. -/
def Vyos.sendRequest (baseURL key endpoint : String) (payload : Json) : HttpRequest :=
  { method := "POST"
    url := combineURL baseURL endpoint
    form := [("key", key), ("data", stringifyJson payload)] }

/-- The list of HTTP requests a single `Vyos.request` call issues: the
body performs exactly one `this.#client.post`. -/
def Vyos.sendRequests (baseURL key endpoint : String) (payload : Json) : List HttpRequest :=
  [Vyos.sendRequest baseURL key endpoint payload]

/-- The property names every plain object inherits from
`Object.prototype` (ECMA-262 \x7b including the Annex B accessor and
legacy methods \x7d): the JS `in` operator finds each of these on any
JSON-parsed object, and property access on a plain object yields the
inherited member for them. -/
def protoKeys : List String :=
  ["constructor", "hasOwnProperty", "isPrototypeOf", "propertyIsEnumerable",
   "toLocaleString", "toString", "valueOf", "__proto__",
   "__defineGetter__", "__defineSetter__", "__lookupGetter__", "__lookupSetter__"]

/-- The JS `in` operator, `key in data`, as applied by `VyosConfig.show`:
for an object, membership among its own keys or the `Object.prototype`
property names (the prototype chain of a JSON-parsed object); for an
array, membership among its index keys and `length` (array data is
reached by no claim, so the array prototype names are not enumerated);
for `null` and every other primitive it raises a `TypeError`. -/
def jsIn (key : String) : Json → Except JsThrown Bool
  | .obj fields => .ok ((fields.map Prod.fst).contains key || protoKeys.contains key)
  | .arr xs =>
      .ok ((((List.range xs.length).map fun i => toString i).contains key)
            || key == "length")
  | _ => .error .typeError

/-- JS property access `data[key]` on the values `show` can reach it
with: the first binding of an own object key, else the inherited
`Object.prototype` member, else `undefined`; array index or `length`
lookup. -/
def jsGet (key : String) : Json → Json
  | .obj fields =>
      match List.lookup key fields with
      | some v => v
      | none => if protoKeys.contains key then .protoMember key else .undef
  | .arr xs =>
      if key == "length" then .num xs.length
      else
        match (List.range xs.length).find? fun i => toString i == key with
        | some i => (xs.get? i).getD Json.undef
        | none => Json.undef
  | _ => Json.undef

/-- One facade method call: the endpoint and payload it passes to
`Vyos.request`, and the value the returned promise settles with as a
function of the transport outcome. -/
structure FacadeCall where
  endpoint : String
  payload : Json
  run : AxiosOutcome → Except JsThrown Json

/-- The `path` field of a descriptor: `path.split(' ')` as a JSON array. -/
def pathJson (path : String) : Json :=
  .arr ((splitPath path).map fun s => .str s)

/-- `VyosConfig.set(path, value)`: POSTs
`\x7b op: 'set', path: path.split(' '), value \x7d` to `configure` and
returns the envelope (`return await this.#vyos.request(...)`). -/
def VyosConfig.set (path value : String) : FacadeCall where
  endpoint := "configure"
  payload := .obj [("op", .str "set"), ("path", pathJson path), ("value", .str value)]
  run outcome :=
    match Vyos.request outcome with
    | .ok body => .ok body.toJs
    | .error e => .error e

/-- `VyosConfig.delete(path)`: POSTs
`\x7b op: 'delete', path: path.split(' ') \x7d` to `configure`; the method
body has no `return`, so on success the promise resolves with `undefined`. -/
def VyosConfig.delete (path : String) : FacadeCall where
  endpoint := "configure"
  payload := .obj [("op", .str "delete"), ("path", pathJson path)]
  run outcome :=
    match Vyos.request outcome with
    | .ok _ => .ok .undef
    | .error e => .error e

/-- `VyosConfig.show(path)` (named `showConfig` here because `show` is a
Lean keyword): POSTs `\x7b op: 'showConfig', path: path.split(' ') \x7d` to
`retrieve`, destructures `data` out of the envelope, and returns
`terminal in data ? data[terminal] : data` where `terminal` is the last
element of `path.split(' ')` (the split is never empty, so the
`getLastD` default is unreachable). -/
def VyosConfig.showConfig (path : String) : FacadeCall where
  endpoint := "retrieve"
  payload := .obj [("op", .str "showConfig"), ("path", pathJson path)]
  run outcome :=
    match Vyos.request outcome with
    | .error e => .error e
    | .ok body =>
        match jsIn ((splitPath path).getLastD "") body.data with
        | .error e => .error e
        | .ok b =>
            .ok (if b then jsGet ((splitPath path).getLastD "") body.data else body.data)

/-- `VyosConfig.comment(path, value)`: POSTs
`\x7b op: 'comment', path: path.split(' '), value \x7d` to `configure`;
no `return`, so it resolves with `undefined`. -/
def VyosConfig.comment (path value : String) : FacadeCall where
  endpoint := "configure"
  payload := .obj [("op", .str "comment"), ("path", pathJson path), ("value", .str value)]
  run outcome :=
    match Vyos.request outcome with
    | .ok _ => .ok .undef
    | .error e => .error e

/-- `VyosConfig.save(file = '/config/config.boot')`: POSTs
`\x7b op: 'save', value: file \x7d` to `config-file`; no `return`, so it
resolves with `undefined`. A `none` argument models an omitted argument,
filled by the default parameter. -/
def VyosConfig.save (file : Option String) : FacadeCall :=
  let f := file.getD "/config/config.boot"
  { endpoint := "config-file"
    payload := .obj [("op", .str "save"), ("value", .str f)]
    run := fun outcome =>
      match Vyos.request outcome with
      | .ok _ => .ok .undef
      | .error e => .error e }

/-- `VyosConfig.load(file = '/config/config.boot')`: POSTs
`\x7b op: 'load', value: file \x7d` to `config-file`; no `return`, so it
resolves with `undefined`. -/
def VyosConfig.load (file : Option String) : FacadeCall :=
  let f := file.getD "/config/config.boot"
  { endpoint := "config-file"
    payload := .obj [("op", .str "load"), ("value", .str f)]
    run := fun outcome =>
      match Vyos.request outcome with
      | .ok _ => .ok .undef
      | .error e => .error e }

/-- `VyosImages.add(url)`: POSTs `\x7b op: 'add', url \x7d` to `image`;
no `return`, so it resolves with `undefined`. -/
def VyosImages.add (url : String) : FacadeCall where
  endpoint := "image"
  payload := .obj [("op", .str "add"), ("url", .str url)]
  run outcome :=
    match Vyos.request outcome with
    | .ok _ => .ok .undef
    | .error e => .error e

/-- `VyosImages.remove(name)`: POSTs `\x7b op: 'delete', name \x7d` to
`image`; no `return`, so it resolves with `undefined`. -/
def VyosImages.remove (name : String) : FacadeCall where
  endpoint := "image"
  payload := .obj [("op", .str "delete"), ("name", .str name)]
  run outcome :=
    match Vyos.request outcome with
    | .ok _ => .ok .undef
    | .error e => .error e

/-- `VyosOps.show(path)` (named `showOp` here for the same keyword
reason):
POSTs `\x7b op: 'show', path: path.split(' ') \x7d` to `show` and returns
`(await this.#vyos.request(...)).data`. -/
def VyosOps.showOp (path : String) : FacadeCall where
  endpoint := "show"
  payload := .obj [("op", .str "show"), ("path", pathJson path)]
  run outcome :=
    match Vyos.request outcome with
    | .ok body => .ok body.data
    | .error e => .error e

/-- `VyosOps.generate(path)`: POSTs
`\x7b op: 'generate', path: path.split(' ') \x7d` to `generate` and
returns the envelope (`return await this.#vyos.request(...)`). -/
def VyosOps.generate (path : String) : FacadeCall where
  endpoint := "generate"
  payload := .obj [("op", .str "generate"), ("path", pathJson path)]
  run outcome :=
    match Vyos.request outcome with
    | .ok body => .ok body.toJs
    | .error e => .error e

/-! ## Theorems about the claims -/

/-- C7: path splitting is the pure function `splitPath`; every path-like
facade argument is split on single spaces into the descriptor's `path`
field, `"system host-name"` yields `["system", "host-name"]` and the
single-segment path `"date"` yields `["date"]`. -/
theorem C7_path_splitting :
    splitPath "system host-name" = ["system", "host-name"] ∧
    splitPath "date" = ["date"] ∧
    (∀ p v, (VyosConfig.set p v).payload =
      .obj [("op", .str "set"), ("path", .arr ((splitPath p).map fun s => .str s)),
            ("value", .str v)]) ∧
    (∀ p, (VyosConfig.delete p).payload =
      .obj [("op", .str "delete"), ("path", .arr ((splitPath p).map fun s => .str s))]) ∧
    (∀ p v, (VyosConfig.comment p v).payload =
      .obj [("op", .str "comment"), ("path", .arr ((splitPath p).map fun s => .str s)),
            ("value", .str v)]) ∧
    (∀ p, (VyosConfig.showConfig p).payload =
      .obj [("op", .str "showConfig"), ("path", .arr ((splitPath p).map fun s => .str s))]) ∧
    (∀ p, (VyosOps.showOp p).payload =
      .obj [("op", .str "show"), ("path", .arr ((splitPath p).map fun s => .str s))]) ∧
    (∀ p, (VyosOps.generate p).payload =
      .obj [("op", .str "generate"), ("path", .arr ((splitPath p).map fun s => .str s))]) :=
  ⟨by decide, by decide, fun _ _ => rfl, fun _ => rfl, fun _ _ => rfl,
   fun _ => rfl, fun _ => rfl, fun _ => rfl⟩

/-- C9: when the file argument of `config.save` or `config.load` is
omitted, the descriptor's file value is exactly `/config/config.boot`. -/
theorem C9_default_config_file :
    (VyosConfig.save none).payload =
      .obj [("op", .str "save"), ("value", .str "/config/config.boot")] ∧
    (VyosConfig.load none).payload =
      .obj [("op", .str "load"), ("value", .str "/config/config.boot")] :=
  ⟨rfl, rfl⟩

/-- C5: `send(E, D)` issues exactly one POST to `<baseURL>/E` whose
multipart body holds exactly the two fields `key` (the configured secret)
and `data` (the JSON encoding of D); and each facade operation uses its
fixed endpoint. -/
theorem C5_send_request_shape :
    (∀ baseURL key endpoint payload,
      Vyos.sendRequests baseURL key endpoint payload =
        [{ method := "POST", url := baseURL ++ "/" ++ endpoint,
           form := [("key", key), ("data", stringifyJson payload)] }]) ∧
    (∀ p v, (VyosConfig.set p v).endpoint = "configure") ∧
    (∀ p, (VyosConfig.delete p).endpoint = "configure") ∧
    (∀ p v, (VyosConfig.comment p v).endpoint = "configure") ∧
    (∀ p, (VyosConfig.showConfig p).endpoint = "retrieve") ∧
    (∀ f, (VyosConfig.save f).endpoint = "config-file") ∧
    (∀ f, (VyosConfig.load f).endpoint = "config-file") ∧
    (∀ u, (VyosImages.add u).endpoint = "image") ∧
    (∀ n, (VyosImages.remove n).endpoint = "image") ∧
    (∀ p, (VyosOps.showOp p).endpoint = "show") ∧
    (∀ p, (VyosOps.generate p).endpoint = "generate") :=
  ⟨fun _ _ _ _ => rfl, fun _ _ => rfl, fun _ => rfl, fun _ _ => rfl, fun _ => rfl,
   fun _ => rfl, fun _ => rfl, fun _ => rfl, fun _ => rfl, fun _ => rfl, fun _ => rfl⟩

/-- C4: a transport failure with no response envelope is rethrown as the
axios error itself (the TransportError), carrying the underlying cause,
and is never turned into a thrown envelope-error string. -/
theorem C4_transport_error (e : AxiosError) (h : e.response = none) :
    Vyos.request (.err e) = .error (.axiosError e) ∧
    ∀ msg, Vyos.request (.err e) ≠ .error (.errString msg) := by
  have hreq : Vyos.request (.err e) = .error (.axiosError e) := by
    simp [Vyos.request, tryClause, catchClause, thrownResponse, h]
  refine ⟨hreq, fun msg hcontra => ?_⟩
  rw [hreq] at hcontra
  exact JsThrown.noConfusion (Except.error.inj hcontra)

/-- Witness for C4 at a concrete connection failure. -/
theorem C4_transport_error_witness :
    Vyos.request (.err ⟨"connect ECONNREFUSED", none⟩) =
      .error (.axiosError ⟨"connect ECONNREFUSED", none⟩) :=
  (C4_transport_error ⟨"connect ECONNREFUSED", none⟩ rfl).1

/-- C1 counterexample: an envelope with `success: false` whose error
message is present but empty is not thrown — on a 2xx status `request`
resolves with the envelope, and on a 500 it rethrows the transport error
instead of the envelope's error string. -/
theorem C1_counterexample :
    Vyos.request (.ok ⟨false, .null, some ""⟩) = .ok ⟨false, .null, some ""⟩ ∧
    Vyos.request (.err ⟨"Request failed with status code 500", some ⟨false, .null, some ""⟩⟩) =
      .error (.axiosError ⟨"Request failed with status code 500", some ⟨false, .null, some ""⟩⟩) :=
  ⟨rfl, rfl⟩

/-- C1 (amended): for every envelope with `success: false` and a present,
non-empty error message, `request` fails with exactly that error string,
identically whether the envelope arrives on a 2xx status or on a non-2xx
status. -/
theorem C1_remote_error (env : Response) (e : String) (hs : env.success = false)
    (he : env.error = some e) (hne : e ≠ "") :
    Vyos.request (.ok env) = .error (.errString e) ∧
    ∀ msg, Vyos.request (.err ⟨msg, some env⟩) = .error (.errString e) := by
  have ht : errTruthy (some e) = true := by simp [errTruthy, hne]
  constructor
  · simp [Vyos.request, tryClause, catchClause, thrownResponse, hs, he, ht]
  · intro msg
    simp [Vyos.request, tryClause, catchClause, thrownResponse, hs, he, ht]

/-- Witness for C1 at a concrete failing envelope, on both a 2xx and a
non-2xx arrival. -/
theorem C1_remote_error_witness :
    Vyos.request (.ok ⟨false, .null, some "Configuration path invalid"⟩) =
      .error (.errString "Configuration path invalid") ∧
    Vyos.request (.err ⟨"Request failed with status code 400",
        some ⟨false, .null, some "Configuration path invalid"⟩⟩) =
      .error (.errString "Configuration path invalid") := by
  have h := C1_remote_error ⟨false, .null, some "Configuration path invalid"⟩
    "Configuration path invalid" rfl rfl (by decide)
  exact ⟨h.1, h.2 "Request failed with status code 400"⟩

/-- C2 counterexample: on a successful envelope, `request` resolves with
the whole envelope object, which is not the envelope's `data` field. -/
theorem C2_counterexample :
    Vyos.request (.ok ⟨true, .str "x", none⟩) = .ok ⟨true, .str "x", none⟩ ∧
    Response.toJs ⟨true, .str "x", none⟩ ≠ .str "x" :=
  ⟨rfl, fun h => Json.noConfusion h⟩

/-- C2 (amended): for every envelope with `success: true`, `request`
resolves with the whole envelope, unchanged (its `data` field unchanged
inside it); the `data` field alone is extracted only by facades. -/
theorem C2_resolves_envelope (env : Response) (hs : env.success = true) :
    Vyos.request (.ok env) = .ok env := by
  simp [Vyos.request, tryClause, hs]

/-- Witness for C2 (amended) at a concrete successful envelope. -/
theorem C2_resolves_envelope_witness :
    Vyos.request (.ok ⟨true, .str "my-vyos", none⟩) = .ok ⟨true, .str "my-vyos", none⟩ :=
  C2_resolves_envelope ⟨true, .str "my-vyos", none⟩ rfl

/-- Helper: an own key of an association list has a looked-up value. -/
theorem lookup_isSome_of_mem (key : String) (fields : List (String × Json))
    (h : key ∈ fields.map Prod.fst) : ∃ v, List.lookup key fields = some v := by
  induction fields with
  | nil => simp at h
  | cons kv rest ih =>
    obtain ⟨k, v⟩ := kv
    by_cases hk : key = k
    · subst hk
      exact ⟨v, by simp [List.lookup]⟩
    · have hmem : key ∈ rest.map Prod.fst := by
        simp at h
        rcases h with h | h
        · exact absurd h hk
        · simpa using h
      obtain ⟨v2, hv2⟩ := ih hmem
      exact ⟨v2, by simp [List.lookup, beq_false_of_ne hk, hv2]⟩

/-- Helper: looking up a key absent from an association list gives
nothing. -/
theorem lookup_eq_none_of_not_mem (key : String) (fields : List (String × Json))
    (h : key ∉ fields.map Prod.fst) : List.lookup key fields = none := by
  induction fields with
  | nil => rfl
  | cons kv rest ih =>
    obtain ⟨k, v⟩ := kv
    have hk : key ≠ k := fun hkk => h (by simp [hkk])
    have hrest : key ∉ rest.map Prod.fst := fun hm => h (by simp [hm])
    simp [List.lookup, beq_false_of_ne hk, ih hrest]

/-- Helper: on a successful retrieval whose envelope data is an object,
`config.show` returns the unwrap conditional over the path's last
segment, whose `in` test covers own keys and the inherited
`Object.prototype` names. -/
theorem show_run_obj (path : String) (outcome : AxiosOutcome) (env : Response)
    (fields : List (String × Json)) (hreq : Vyos.request outcome = .ok env)
    (hdata : env.data = .obj fields) :
    (VyosConfig.showConfig path).run outcome =
      .ok (if (fields.map Prod.fst).contains ((splitPath path).getLastD "")
              || protoKeys.contains ((splitPath path).getLastD "")
           then jsGet ((splitPath path).getLastD "") (.obj fields)
           else .obj fields) := by
  simp only [VyosConfig.showConfig, hreq, hdata, jsIn]

/-- C3 counterexample: the JS `in` operator searches the prototype chain,
so under the path `"system toString"` — whose last segment is not a key
of the data mapping `\x7b "a": 1 \x7d` — `config.show` resolves with the
inherited `Object.prototype.toString` member, not with the full data
mapping unchanged. -/
theorem C3_counterexample :
    (VyosConfig.showConfig "system toString").run
        (.ok ⟨true, .obj [("a", .num 1)], none⟩) = .ok (.protoMember "toString") ∧
    Json.protoMember "toString" ≠ .obj [("a", .num 1)] :=
  ⟨rfl, fun h => Json.noConfusion h⟩

/-- C3 (amended): for a successful retrieval whose path's last segment is
`T` and whose data is a mapping, `config.show` returns the nested value
`data[T]` when `T` is a key of the mapping; when `T` is not a key but
names an `Object.prototype` property it returns the inherited prototype
member; otherwise it returns the full mapping unchanged. In particular
`\x7b "host-name": "my-vyos" \x7d` under path `"system host-name"` yields
`"my-vyos"`, and `\x7b "a": 1, "b": 2 \x7d` under the non-key last
segment `"system"` yields the full mapping. -/
theorem C3_show_unwrapping :
    (∀ (path : String) (outcome : AxiosOutcome) (env : Response)
        (fields : List (String × Json)),
      Vyos.request outcome = .ok env → env.data = .obj fields →
      (((fields.map Prod.fst).contains ((splitPath path).getLastD "") = true →
          (VyosConfig.showConfig path).run outcome =
            .ok ((List.lookup ((splitPath path).getLastD "") fields).getD .undef)) ∧
       ((fields.map Prod.fst).contains ((splitPath path).getLastD "") = false →
          protoKeys.contains ((splitPath path).getLastD "") = true →
          (VyosConfig.showConfig path).run outcome =
            .ok (.protoMember ((splitPath path).getLastD ""))) ∧
       ((fields.map Prod.fst).contains ((splitPath path).getLastD "") = false →
          protoKeys.contains ((splitPath path).getLastD "") = false →
          (VyosConfig.showConfig path).run outcome = .ok (.obj fields)))) ∧
    (VyosConfig.showConfig "system host-name").run
        (.ok ⟨true, .obj [("host-name", .str "my-vyos")], none⟩) = .ok (.str "my-vyos") ∧
    (VyosConfig.showConfig "system").run
        (.ok ⟨true, .obj [("a", .num 1), ("b", .num 2)], none⟩) =
      .ok (.obj [("a", .num 1), ("b", .num 2)]) := by
  refine ⟨?_, rfl, rfl⟩
  intro path outcome env fields hreq hdata
  have hrun := show_run_obj path outcome env fields hreq hdata
  generalize hT : (splitPath path).getLastD "" = T at hrun ⊢
  refine ⟨?_, ?_, ?_⟩
  · intro hc
    have hcond : ((fields.map Prod.fst).contains T || protoKeys.contains T) = true := by
      rw [hc]
      rfl
    rw [hrun, if_pos hcond]
    obtain ⟨v, hv⟩ := lookup_isSome_of_mem T fields (by simpa using hc)
    simp [jsGet, hv]
  · intro hc hp
    have hcond : ((fields.map Prod.fst).contains T || protoKeys.contains T) = true := by
      rw [hc, hp]
      rfl
    rw [hrun, if_pos hcond]
    have hnone := lookup_eq_none_of_not_mem T fields (by simpa using hc)
    have hp2 : T ∈ protoKeys := by simpa using hp
    simp [jsGet, hnone, hp2]
  · intro hc hp
    have hcond : ¬(((fields.map Prod.fst).contains T || protoKeys.contains T) = true) := by
      rw [hc, hp]
      exact Bool.false_ne_true
    rw [hrun, if_neg hcond]

/-- Witness for the general part of C3 (amended), on an own-key hit, a
prototype-named miss, and a plain miss. -/
theorem C3_show_unwrapping_witness :
    (VyosConfig.showConfig "interfaces ethernet").run
        (.ok ⟨true, .obj [("ethernet", .bool true)], none⟩) = .ok (.bool true) ∧
    (VyosConfig.showConfig "system valueOf").run
        (.ok ⟨true, .obj [("a", .num 1)], none⟩) = .ok (.protoMember "valueOf") ∧
    (VyosConfig.showConfig "interfaces").run
        (.ok ⟨true, .obj [("eth0", .null)], none⟩) = .ok (.obj [("eth0", .null)]) := by
  refine ⟨?_, ?_, ?_⟩
  · exact ((C3_show_unwrapping.1 "interfaces ethernet"
      (.ok ⟨true, .obj [("ethernet", .bool true)], none⟩)
      ⟨true, .obj [("ethernet", .bool true)], none⟩
      [("ethernet", .bool true)] rfl rfl).1 (by decide)).trans rfl
  · exact ((C3_show_unwrapping.1 "system valueOf"
      (.ok ⟨true, .obj [("a", .num 1)], none⟩)
      ⟨true, .obj [("a", .num 1)], none⟩
      [("a", .num 1)] rfl rfl).2.1 (by decide) (by decide)).trans rfl
  · exact (C3_show_unwrapping.1 "interfaces"
      (.ok ⟨true, .obj [("eth0", .null)], none⟩)
      ⟨true, .obj [("eth0", .null)], none⟩
      [("eth0", .null)] rfl rfl).2.2 (by decide) (by decide)

/-- C10: `config.show` applies the `in` key test directly to the
envelope's data, so a transport-successful retrieval whose data is `null`
or a plain string makes `show` throw a `TypeError` instead of resolving,
while object data always resolves. -/
theorem C10_show_in_typeerror :
    ∀ (path : String) (outcome : AxiosOutcome) (env : Response),
      Vyos.request outcome = .ok env →
      ((env.data = .null →
          (VyosConfig.showConfig path).run outcome = .error .typeError) ∧
       (∀ s, env.data = .str s →
          (VyosConfig.showConfig path).run outcome = .error .typeError) ∧
       (∀ fields, env.data = .obj fields →
          ∃ v, (VyosConfig.showConfig path).run outcome = .ok v)) := by
  intro path outcome env hreq
  refine ⟨?_, ?_, ?_⟩
  · intro hd
    simp [VyosConfig.showConfig, hreq, hd, jsIn]
  · intro s hd
    simp [VyosConfig.showConfig, hreq, hd, jsIn]
  · intro fields hd
    exact ⟨_, show_run_obj path outcome env fields hreq hd⟩

/-- Witness for C10: a `null` data value and a string data value both
raise `TypeError`; an empty object resolves. -/
theorem C10_show_in_typeerror_witness :
    (VyosConfig.showConfig "system host-name").run (.ok ⟨true, .null, none⟩) =
      .error .typeError ∧
    (VyosConfig.showConfig "system host-name").run (.ok ⟨true, .str "my-vyos", none⟩) =
      .error .typeError := by
  constructor
  · exact (C10_show_in_typeerror "system host-name" (.ok ⟨true, .null, none⟩)
      ⟨true, .null, none⟩ rfl).1 rfl
  · exact (C10_show_in_typeerror "system host-name" (.ok ⟨true, .str "my-vyos", none⟩)
      ⟨true, .str "my-vyos", none⟩ rfl).2.1 "my-vyos" rfl

/-- C6 counterexample: on a successful envelope carrying data, 
`config.delete` resolves with `undefined` — nothing — not with the
response data (and not with the envelope). -/
theorem C6_counterexample :
    (VyosConfig.delete "system host-name").run (.ok ⟨true, .str "x", none⟩) = .ok .undef ∧
    Json.undef ≠ Json.str "x" :=
  ⟨rfl, fun h => Json.noConfusion h⟩

/-- C6 (amended): on success, `ops.show` resolves to response data;
`config.show`, when the data is an object, resolves to the show-path
unwrap of that data (the nested own value, or an inherited
`Object.prototype` member on a prototype-named last segment, or the full
mapping — see C3); `config.set` and `ops.generate` resolve to the raw
envelope; and `config.delete`, `config.comment`, `config.save`,
`config.load`, `images.add` and `images.remove` resolve to nothing
(`undefined`). -/
theorem C6_resolution_values (outcome : AxiosOutcome) (env : Response)
    (h : Vyos.request outcome = .ok env) :
    ∀ (p v u n : String) (f : Option String),
      (VyosConfig.set p v).run outcome = .ok env.toJs ∧
      (VyosConfig.delete p).run outcome = .ok .undef ∧
      (VyosConfig.comment p v).run outcome = .ok .undef ∧
      (VyosConfig.save f).run outcome = .ok .undef ∧
      (VyosConfig.load f).run outcome = .ok .undef ∧
      (VyosImages.add u).run outcome = .ok .undef ∧
      (VyosImages.remove n).run outcome = .ok .undef ∧
      (VyosOps.showOp p).run outcome = .ok env.data ∧
      (VyosOps.generate p).run outcome = .ok env.toJs ∧
      (∀ fields, env.data = .obj fields →
        (VyosConfig.showConfig p).run outcome =
          .ok (if (fields.map Prod.fst).contains ((splitPath p).getLastD "")
                  || protoKeys.contains ((splitPath p).getLastD "")
               then jsGet ((splitPath p).getLastD "") (.obj fields)
               else .obj fields)) := by
  intro p v u n f
  refine ⟨?_, ?_, ?_, ?_, ?_, ?_, ?_, ?_, ?_,
      fun fields hd => show_run_obj p outcome env fields h hd⟩ <;>
    simp [VyosConfig.set, VyosConfig.delete, VyosConfig.comment, VyosConfig.save,
      VyosConfig.load, VyosImages.add, VyosImages.remove, VyosOps.showOp,
      VyosOps.generate, h]

/-- Witness for C6 (amended) at concrete successful envelopes, including
the `config.show` clause at object data. -/
theorem C6_resolution_values_witness :
    (VyosOps.showOp "date").run (.ok ⟨true, .str "Mon 15 Feb 2021", none⟩) =
      .ok (.str "Mon 15 Feb 2021") ∧
    (VyosImages.add "https://example.test/img.iso").run
        (.ok ⟨true, .str "Mon 15 Feb 2021", none⟩) = .ok .undef ∧
    (VyosConfig.showConfig "system host-name").run
        (.ok ⟨true, .obj [("host-name", .str "my-vyos")], none⟩) = .ok (.str "my-vyos") := by
  have h := C6_resolution_values (.ok ⟨true, .str "Mon 15 Feb 2021", none⟩)
    ⟨true, .str "Mon 15 Feb 2021", none⟩ rfl "date" "" "https://example.test/img.iso" "" none
  have h2 := C6_resolution_values (.ok ⟨true, .obj [("host-name", .str "my-vyos")], none⟩)
    ⟨true, .obj [("host-name", .str "my-vyos")], none⟩ rfl "system host-name" "" "" "" none
  exact ⟨h.2.2.2.2.2.2.2.1, h.2.2.2.2.2.1,
    (h2.2.2.2.2.2.2.2.2.2 [("host-name", .str "my-vyos")] rfl).trans rfl⟩

/-- A character list with no two adjacent spaces. -/
def noAdj : List Char → Bool
  | c1 :: c2 :: rest => !(c1 == ' ' && c2 == ' ') && noAdj (c2 :: rest)
  | _ => true

/-- Dropping the first character preserves the no-adjacent-spaces
property. -/
theorem noAdj_cons {c : Char} {l : List Char} (h : noAdj (c :: l) = true) :
    noAdj l = true := by
  cases l with
  | nil => rfl
  | cons d r =>
    simp only [noAdj, Bool.and_eq_true] at h
    exact h.2

/-- After a space, a list with no adjacent spaces continues with a
non-space character. -/
theorem noAdj_after_space {d : Char} {r : List Char}
    (h : noAdj (' ' :: d :: r) = true) : d ≠ ' ' := by
  intro hd
  subst hd
  simp [noAdj] at h

/-- `split` never produces an empty list of pieces. -/
theorem splitChar_ne_nil (cs : List Char) : splitChar cs ≠ [] := by
  cases cs with
  | nil => simp [splitChar]
  | cons c rest =>
    by_cases h : c = ' '
    · simp [splitChar, h]
    · simp only [splitChar, if_neg h]
      cases hs : splitChar rest with
      | nil => simp
      | cons w ws => simp

/-- For a non-empty character list that neither starts nor ends with a
space and has no two adjacent spaces, every piece produced by `splitChar`
is non-empty. -/
theorem splitChar_all_ne_nil : ∀ (cs : List Char), cs ≠ [] → cs.head? ≠ some ' ' →
    cs.getLast? ≠ some ' ' → noAdj cs = true → ∀ w ∈ splitChar cs, w ≠ []
  | [], h0, _, _, _ => absurd rfl h0
  | [c], _, h1, _, _ => by
    have hc : ¬(c = ' ') := fun h => h1 (by simp [h])
    intro w hw
    simp only [splitChar, if_neg hc] at hw
    simp at hw
    subst hw
    simp
  | c1 :: c2 :: rest, _, h1, h2, h3 => by
    have hc1 : ¬(c1 = ' ') := fun h => h1 (by simp [h])
    have h3' : noAdj (c2 :: rest) = true := noAdj_cons h3
    by_cases hc2 : c2 = ' '
    · subst hc2
      have hrest : rest ≠ [] := by
        intro h
        subst h
        exact h2 (by simp)
      have hrh : rest.head? ≠ some ' ' := by
        cases rest with
        | nil => simp
        | cons c3 r =>
          have hne := noAdj_after_space h3'
          simp [hne]
      have hrl : rest.getLast? ≠ some ' ' := by
        rw [List.getLast?_cons_cons] at h2
        cases rest with
        | nil => simp
        | cons c3 r => rwa [List.getLast?_cons_cons] at h2
      have ih := splitChar_all_ne_nil rest hrest hrh hrl (noAdj_cons h3')
      intro w hw
      have hs : splitChar (c1 :: ' ' :: rest) = [c1] :: splitChar rest := by
        simp [splitChar, hc1]
      rw [hs] at hw
      rcases List.mem_cons.mp hw with h | h
      · subst h; simp
      · exact ih w h
    · have hlast : (c2 :: rest).getLast? ≠ some ' ' := by
        rwa [List.getLast?_cons_cons] at h2
      have ih := splitChar_all_ne_nil (c2 :: rest) (by simp) (by simpa using hc2) hlast h3'
      intro w hw
      obtain ⟨w0, ws0, hs0⟩ : ∃ w0 ws0, splitChar (c2 :: rest) = w0 :: ws0 := by
        cases h : splitChar (c2 :: rest) with
        | nil => exact absurd h (splitChar_ne_nil _)
        | cons a b => exact ⟨a, b, rfl⟩
      have hs : splitChar (c1 :: c2 :: rest) = (c1 :: w0) :: ws0 := by
        rw [splitChar, if_neg hc1, hs0]
      rw [hs] at hw
      rcases List.mem_cons.mp hw with h | h
      · subst h; simp
      · refine ih w ?_
        rw [hs0]
        exact List.mem_cons_of_mem w0 h
termination_by cs => cs.length

/-- C8 counterexample: the path `"a  b"` (two adjacent spaces) is
accepted by `config.set` and places the empty string among the
descriptor's path segments. -/
theorem C8_counterexample :
    splitPath "a  b" = ["a", "", "b"] ∧
    (VyosConfig.set "a  b" "v").payload =
      .obj [("op", .str "set"), ("path", .arr [.str "a", .str "", .str "b"]),
            ("value", .str "v")] ∧
    "" ∈ splitPath "a  b" :=
  ⟨by decide, rfl, by decide⟩

/-- C8 (amended): the path segments placed in the descriptor are all
non-empty provided the path is non-empty, neither starts nor ends with a
space, and contains no two adjacent spaces; otherwise empty segments can
occur. -/
theorem C8_nonempty_segments (p : String) (h0 : p.data ≠ [])
    (h1 : p.data.head? ≠ some ' ') (h2 : p.data.getLast? ≠ some ' ')
    (h3 : noAdj p.data = true) :
    ∀ s ∈ splitPath p, s ≠ "" := by
  intro s hs
  obtain ⟨cs, hcs, rfl⟩ := List.mem_map.mp hs
  intro hemp
  exact splitChar_all_ne_nil p.data h0 h1 h2 h3 cs hcs (congrArg String.data hemp)

/-- Witness for C8 (amended) on the well-formed path
`"system host-name"`. -/
theorem C8_nonempty_segments_witness :
    ("system" ∈ splitPath "system host-name") ∧ "system" ≠ "" :=
  ⟨by decide,
   C8_nonempty_segments "system host-name" (by decide) (by decide) (by decide)
     (by decide) "system" (by decide)⟩
